import Mathlib

/-!
# Verification of the arca-sdk invoice/authentication core

Shallow embedding of the arca-sdk TypeScript sources in Lean 4.  JavaScript
number arithmetic is embedded as exact rational arithmetic over `ℚ`
(`Math.round` becomes round-half-toward-+∞ on rationals, which agrees with the
double-precision behaviour on every concrete value appearing below), machine
state (the ticket cache) is embedded as explicit state passing, network I/O is
embedded as environment-supplied responses together with an explicit trace of
the remote operations performed, and thrown exceptions become `Except` values.
-/

set_option linter.unusedVariables false

namespace ArcaSdk

/-! ## Monetary calculations — `src/utils/calculations.ts`

`InvoiceItem` mirrors the TypeScript interface (`description`, `quantity`,
`unitPrice`, optional `vatRate`).  JavaScript truthiness of `item.vatRate`
(`undefined` and `0` are falsy) is embedded as `vatRate = some r ∧ r ≠ 0`. -/

structure InvoiceItem where
  description : String
  quantity : ℚ
  unitPrice : ℚ
  vatRate : Option ℚ
deriving Repr, DecidableEq

/-- JavaScript `Math.round`: round to the nearest integer, ties toward `+∞`. -/
def jsMathRound (x : ℚ) : ℤ := ⌊x + 1 / 2⌋

/-- `round` from `calculations.ts`: `Math.round(value * 100) / 100`. -/
def round (value : ℚ) : ℚ := (jsMathRound (value * 100) : ℚ) / 100

/-- The net unit price used by `calculateSubtotal`: the body of the `reduce`
callback hoisted out (`netPrice = unitPrice / (1 + vatRate / 100)` when
`includesVAT && item.vatRate` is truthy, else `unitPrice`). -/
def netUnitPrice (includesVAT : Bool) (item : InvoiceItem) : ℚ :=
  match item.vatRate with
  | some r => if includesVAT = true ∧ r ≠ 0 then item.unitPrice / (1 + r / 100) else item.unitPrice
  | none => item.unitPrice

/-- One step of the `reduce` in `calculateSubtotal`. -/
def subtotalStep (includesVAT : Bool) (sum : ℚ) (item : InvoiceItem) : ℚ :=
  sum + item.quantity * netUnitPrice includesVAT item

/-- `calculateSubtotal(items, includesVAT)` from `calculations.ts`. -/
def calculateSubtotal (items : List InvoiceItem) (includesVAT : Bool) : ℚ :=
  items.foldl (subtotalStep includesVAT) 0

/-- One step of the `reduce` in `calculateVAT`: `rate = item.vatRate || 0`,
recompute the net price, accumulate `(netSubtotal * rate) / 100`. -/
def vatStep (includesVAT : Bool) (sum : ℚ) (item : InvoiceItem) : ℚ :=
  let rate := item.vatRate.getD 0
  let netPrice :=
    if includesVAT = true ∧ rate ≠ 0 then item.unitPrice / (1 + rate / 100) else item.unitPrice
  let netSubtotal := item.quantity * netPrice
  sum + netSubtotal * rate / 100

/-- `calculateVAT(items, includesVAT)` from `calculations.ts`. -/
def calculateVAT (items : List InvoiceItem) (includesVAT : Bool) : ℚ :=
  items.foldl (vatStep includesVAT) 0

/-- `calculateTotal(items, includesVAT)` from `calculations.ts`: the raw
`quantity * unitPrice` sum when prices include VAT, else subtotal + VAT. -/
def calculateTotal (items : List InvoiceItem) (includesVAT : Bool) : ℚ :=
  if includesVAT then items.foldl (fun sum item => sum + item.quantity * item.unitPrice) 0
  else calculateSubtotal items false + calculateVAT items false

/-- Modelled from the spec's words, for comparison with the code's `round`:
round to 2 decimals with ties away from zero. -/
def roundHalfAwayFromZero (v : ℚ) : ℚ :=
  if v < 0 then -((⌊-v * 100 + 1 / 2⌋ : ℚ) / 100) else (⌊v * 100 + 1 / 2⌋ : ℚ) / 100

/-- Spec-side raw subtotal: the sum of `quantity × unitPrice` over the items. -/
def rawItemSum (items : List InvoiceItem) : ℚ :=
  (items.map fun i => i.quantity * i.unitPrice).sum

/-- Spec-side tax: the sum of the per-item VAT amounts (rate absent = 0). -/
def itemVATSum (items : List InvoiceItem) : ℚ :=
  (items.map fun i => i.quantity * i.unitPrice * i.vatRate.getD 0 / 100).sum

/-! ### Generic fold lemmas -/

theorem foldl_step_sum (g : InvoiceItem → ℚ) (step : ℚ → InvoiceItem → ℚ)
    (hstep : ∀ s i, step s i = s + g i) (items : List InvoiceItem) (a : ℚ) :
    items.foldl step a = a + (items.map g).sum := by
  induction items generalizing a with
  | nil => simp
  | cons x xs ih => simp [hstep, ih, add_assoc]

theorem subtotalStep_false (s : ℚ) (i : InvoiceItem) :
    subtotalStep false s i = s + i.quantity * i.unitPrice := by
  unfold subtotalStep netUnitPrice
  cases i.vatRate <;> simp

theorem vatStep_false (s : ℚ) (i : InvoiceItem) :
    vatStep false s i = s + i.quantity * i.unitPrice * i.vatRate.getD 0 / 100 := by
  unfold vatStep
  simp [mul_assoc]

theorem calculateSubtotal_false (items : List InvoiceItem) :
    calculateSubtotal items false = rawItemSum items := by
  unfold calculateSubtotal rawItemSum
  rw [foldl_step_sum (fun i => i.quantity * i.unitPrice) _ subtotalStep_false, zero_add]

theorem calculateVAT_false (items : List InvoiceItem) :
    calculateVAT items false = itemVATSum items := by
  unfold calculateVAT itemVATSum
  rw [foldl_step_sum (fun i => i.quantity * i.unitPrice * i.vatRate.getD 0 / 100) _
    vatStep_false, zero_add]

/-! ### Claim C5 — rounding semantics -/

/-- C5 (counterexample): the claim asserts `round` is round-half-away-from-zero,
in particular `round(-0.005) = -0.01`; on the code (`Math.round(x*100)/100`,
ties toward `+∞`) the value is `0`, not `-0.01`. -/
theorem C5_round_counterexample :
    round (-(5 / 1000)) = 0 ∧ round (-(5 / 1000)) ≠ -(1 / 100) ∧
      roundHalfAwayFromZero (-(5 / 1000)) = -(1 / 100) := by
  norm_num [round, jsMathRound, roundHalfAwayFromZero]

/-- C5 (amended): `round(x)` rounds to 2 decimals with ties toward `+∞`; this
agrees with round-half-away-from-zero on every nonnegative input (so
`round(894.505) = 894.51` and `round(894.504) = 894.5` hold), but an exact
negative half such as `-0.005` rounds toward `+∞` to `0`, not to `-0.01`. -/
theorem C5_round_amended (x : ℚ) (hx : 0 ≤ x) :
    round x = roundHalfAwayFromZero x := by
  unfold round roundHalfAwayFromZero jsMathRound
  rw [if_neg (not_lt.mpr hx)]

/-- C5 witness: the amended theorem applied at `894.505`, plus concrete
evaluations of both spec examples. -/
theorem C5_round_amended_witness :
    round (894505 / 1000) = roundHalfAwayFromZero (894505 / 1000) ∧
      round (894505 / 1000) = 89451 / 100 ∧ round (894504 / 1000) = 8945 / 10 :=
  ⟨C5_round_amended (894505 / 1000) (by norm_num), by norm_num [round, jsMathRound],
    by norm_num [round, jsMathRound]⟩

/-! ### Claim C6 — aggregated total without included VAT -/

/-- The item list of the spec's worked example. -/
def exampleItems : List InvoiceItem :=
  [⟨"Item 1", 2, 100, some 21⟩, ⟨"Item 2", 1, 500, some (21 / 2)⟩, ⟨"Item 3", 10, 10, some 0⟩]

/-- C6: with `pricesIncludeTax = false` the aggregated total is
`round(subtotal + tax)` where `subtotal = Σ quantity × unitPrice` and `tax` is
the sum of per-item VAT amounts; on the worked example the subtotal is `800`,
the tax `94.5` and the total `894.5`. -/
theorem C6_total_no_included_vat :
    (∀ items : List InvoiceItem,
        round (calculateTotal items false) = round (rawItemSum items + itemVATSum items)) ∧
      rawItemSum exampleItems = 800 ∧ itemVATSum exampleItems = 189 / 2 ∧
      round (calculateTotal exampleItems false) = 1789 / 2 := by
  refine ⟨fun items => ?_, by norm_num [rawItemSum, exampleItems],
    by norm_num [itemVATSum, exampleItems],
    by norm_num [round, jsMathRound, calculateTotal, calculateSubtotal, calculateVAT,
      subtotalStep, vatStep, netUnitPrice, exampleItems]⟩
  unfold calculateTotal
  rw [if_neg (by simp), calculateSubtotal_false, calculateVAT_false]

/-! ### Claim C7 — VAT-inclusive round trip -/

theorem item_net_plus_vat (i : InvoiceItem) (h : 0 ≤ i.vatRate.getD 0) :
    i.quantity * netUnitPrice true i +
      i.quantity * netUnitPrice true i * i.vatRate.getD 0 / 100 =
      i.quantity * i.unitPrice := by
  unfold netUnitPrice
  cases hr : i.vatRate with
  | none => simp [hr]
  | some r =>
    rw [hr] at h
    simp only [Option.getD_some] at h ⊢
    by_cases h0 : r = 0
    · simp [h0]
    · rw [if_pos (show True ∧ r ≠ 0 from ⟨trivial, h0⟩)]
      have hc : (1 : ℚ) + r / 100 ≠ 0 := by positivity
      field_simp
      ring

theorem vatStep_true (s : ℚ) (i : InvoiceItem) :
    vatStep true s i = s + i.quantity * netUnitPrice true i * i.vatRate.getD 0 / 100 := by
  unfold vatStep netUnitPrice
  cases hr : i.vatRate <;> simp [mul_assoc]

theorem subtotalStep_true (s : ℚ) (i : InvoiceItem) :
    subtotalStep true s i = s + i.quantity * netUnitPrice true i := rfl

/-- C7: with `pricesIncludeTax = true` (and every item's rate a nonnegative
percentage, the data model's domain), recovering the net price and re-adding
the tax reproduces the raw `quantity × unitPrice` sum:
`round(calculateSubtotal(items,true) + calculateVAT(items,true)) ==
round(calculateTotal(items,true))`. -/
theorem C7_included_vat_roundtrip (items : List InvoiceItem)
    (h : ∀ i ∈ items, 0 ≤ i.vatRate.getD 0) :
    round (calculateSubtotal items true + calculateVAT items true) =
      round (calculateTotal items true) := by
  have hsum : calculateSubtotal items true + calculateVAT items true =
      rawItemSum items := by
    unfold calculateSubtotal calculateVAT
    rw [foldl_step_sum (fun i => i.quantity * netUnitPrice true i) _ subtotalStep_true,
      foldl_step_sum (fun i => i.quantity * netUnitPrice true i * i.vatRate.getD 0 / 100) _
        vatStep_true, zero_add, zero_add]
    unfold rawItemSum
    induction items with
    | nil => simp
    | cons x xs ih =>
      simp only [List.map_cons, List.sum_cons]
      have hx := item_net_plus_vat x (h x (by simp))
      have ihx := ih fun i hi => h i (by simp [hi])
      linarith
  have htot : calculateTotal items true = rawItemSum items := by
    unfold calculateTotal rawItemSum
    rw [if_pos rfl, foldl_step_sum (fun i => i.quantity * i.unitPrice) _ (fun s i => rfl),
      zero_add]
  rw [hsum, htot]

/-- The VAT-inclusive item list from the repository's unit tests. -/
def exampleItemsVATInc : List InvoiceItem :=
  [⟨"Item 1", 1, 121, some 21⟩, ⟨"Item 2", 2, 221 / 2, some (21 / 2)⟩]

/-- C7 witness: the round-trip theorem applied to the unit tests' concrete
VAT-inclusive items, together with their evaluated aggregates. -/
theorem C7_included_vat_roundtrip_witness :
    round (calculateSubtotal exampleItemsVATInc true + calculateVAT exampleItemsVATInc true) =
        round (calculateTotal exampleItemsVATInc true) ∧
      calculateSubtotal exampleItemsVATInc true = 300 ∧
      calculateVAT exampleItemsVATInc true = 42 ∧ calculateTotal exampleItemsVATInc true = 342 :=
  ⟨C7_included_vat_roundtrip exampleItemsVATInc (by norm_num [exampleItemsVATInc]),
    by norm_num [calculateSubtotal, subtotalStep, netUnitPrice, exampleItemsVATInc],
    by norm_num [calculateVAT, vatStep, exampleItemsVATInc],
    by norm_num [calculateTotal, exampleItemsVATInc]⟩

/-! ## Ticket lifecycle — `src/auth/ticket.ts` (`TicketManager`)

The manager's single mutable cell `this.ticket : LoginTicket | null` is
embedded as explicit state passing: each accessor returns its result together
with the cell's new contents.  `Date` values are embedded as integer epoch
milliseconds (`Date.getTime()`). -/

structure LoginTicket where
  token : String
  sign : String
  generationTime : Int
  expirationTime : Int
deriving Repr, DecidableEq

/-- `BUFFER_MS` from `TicketManager.getTicket`: five minutes. -/
def BUFFER_MS : Int := 5 * 60 * 1000

namespace TicketManager

/-- `TicketManager.getTicket()`: returns the cached ticket while it is still
valid; if it expires in strictly less than `BUFFER_MS`, clears the cache and
returns `null`.  Result: `(returned ticket?, new cache contents)`. -/
def getTicket (ticket : Option LoginTicket) (now : Int) :
    Option LoginTicket × Option LoginTicket :=
  match ticket with
  | none => (none, none)
  | some t =>
    let expiresIn := t.expirationTime - now
    if expiresIn < BUFFER_MS then (none, none) else (some t, some t)

/-- `TicketManager.hasValidTicket()`: `getTicket() !== null` (which also
updates the cache). -/
def hasValidTicket (ticket : Option LoginTicket) (now : Int) : Bool × Option LoginTicket :=
  ((getTicket ticket now).1.isSome, (getTicket ticket now).2)

/-- `TicketManager.clearTicket()`. -/
def clearTicket (ticket : Option LoginTicket) : Option LoginTicket := none

end TicketManager

/-- A ticket exactly at the renewal-buffer boundary when `now = 0`:
`expiresAt - now` equals five minutes to the millisecond. -/
def ticketAtBoundary : LoginTicket := ⟨"tok", "sig", -43200000, 300000⟩

/-- A ticket four minutes from expiry at `now = 0` (inside the buffer). -/
def ticketFourMin : LoginTicket := ⟨"tok", "sig", -43200000, 240000⟩

/-! ### Claim C4 — cache accessor never returns a buffer-invalid ticket -/

/-- C4 (counterexample): at the exact boundary `now = expiresAt - 5 min`
(claimed to be "logically invalid, never returned") the code's strict
comparison `expiresIn < BUFFER_MS` is false, so `getTicket` does return the
ticket instead of forcing renewal. -/
theorem C4_getTicket_counterexample :
    0 ≥ ticketAtBoundary.expirationTime - BUFFER_MS ∧
      (TicketManager.getTicket (some ticketAtBoundary) 0).1 = some ticketAtBoundary := by
  constructor
  · norm_num [ticketAtBoundary, BUFFER_MS]
  · norm_num [TicketManager.getTicket, ticketAtBoundary, BUFFER_MS]

/-- C4 (amended): a cached ticket is withheld (and the cache cleared, forcing
renewal) exactly when its remaining validity is strictly below the 5-minute
buffer, i.e. `now > expiresAt - 5 min`; at the exact boundary
`now = expiresAt - 5 min` the ticket is still returned. -/
theorem C4_getTicket_amended (t : LoginTicket) (now : Int) :
    (t.expirationTime - now < BUFFER_MS →
        (TicketManager.getTicket (some t) now).1 = none ∧
          (TicketManager.getTicket (some t) now).2 = none) ∧
      (BUFFER_MS ≤ t.expirationTime - now →
        (TicketManager.getTicket (some t) now).1 = some t) := by
  constructor
  · intro h
    simp [TicketManager.getTicket, h]
  · intro h
    simp [TicketManager.getTicket, not_lt.mpr h]

/-- C4 witness: the amended theorem applied to a ticket four minutes from
expiry (withheld) and to the boundary ticket (returned). -/
theorem C4_getTicket_amended_witness :
    (TicketManager.getTicket (some ticketFourMin) 0).1 = none ∧
      (TicketManager.getTicket (some ticketAtBoundary) 0).1 = some ticketAtBoundary :=
  ⟨((C4_getTicket_amended ticketFourMin 0).1 (by norm_num [ticketFourMin, BUFFER_MS])).1,
    (C4_getTicket_amended ticketAtBoundary 0).2 (by norm_num [ticketAtBoundary, BUFFER_MS])⟩

/-! ### Claim C10 — `getTicket` is self-clearing -/

/-- C10: whenever the cached ticket's remaining validity is below the buffer,
`getTicket` returns `null` and also erases the cache; after any `getTicket`
call the cache is empty or holds a ticket whose validity was at least the
buffer at that call, and a subsequent `hasValidTicket` at the same instant
reflects exactly whether a ticket was returned. -/
theorem C10_getTicket_self_clearing (s : Option LoginTicket) (now : Int) :
    ((TicketManager.getTicket s now).2 = none ∨
        ∃ t, (TicketManager.getTicket s now).2 = some t ∧
          BUFFER_MS ≤ t.expirationTime - now) ∧
      (∀ t, s = some t → t.expirationTime - now < BUFFER_MS →
        (TicketManager.getTicket s now).1 = none ∧ (TicketManager.getTicket s now).2 = none) ∧
      (TicketManager.hasValidTicket (TicketManager.getTicket s now).2 now).1 =
        (TicketManager.getTicket s now).1.isSome := by
  match s with
  | none => simp [TicketManager.getTicket, TicketManager.hasValidTicket]
  | some t =>
    by_cases h : t.expirationTime - now < BUFFER_MS
    · simp [TicketManager.getTicket, TicketManager.hasValidTicket, h]
    · refine ⟨Or.inr ⟨t, by simp [TicketManager.getTicket, h], not_lt.mp h⟩,
        fun u hu hlt => ?_,
        by simp [TicketManager.hasValidTicket, TicketManager.getTicket, h]⟩
      cases hu
      exact absurd hlt h

/-- C10 witness: the theorem applied to a concrete buffer-expired cache entry:
the call returns `null` and leaves the cache empty. -/
theorem C10_getTicket_self_clearing_witness :
    (TicketManager.getTicket (some ticketFourMin) 0).1 = none ∧
      (TicketManager.getTicket (some ticketFourMin) 0).2 = none :=
  (C10_getTicket_self_clearing (some ticketFourMin) 0).2.1 ticketFourMin rfl
    (by norm_num [ticketFourMin, BUFFER_MS])

/-! ## Error taxonomy — `src/types/common.ts`

`ArcaError` and its subclasses, identified by their fixed `code` strings.
`base` embeds a plain `ArcaError` thrown with an explicit code
(`HTTP_ERROR`, `PARSE_ERROR`, `ARCA_ERROR`). -/

inductive ArcaErr where
  | validation (message : String)
  | auth (message : String)
  | network (message : String)
  | base (code : String) (message : String)
deriving Repr, DecidableEq

/-- The `code` property of the thrown error object. -/
def ArcaErr.code : ArcaErr → String
  | validation _ => "VALIDATION_ERROR"
  | auth _ => "AUTH_ERROR"
  | network _ => "NETWORK_ERROR"
  | base c _ => c

def ArcaErr.isValidation : ArcaErr → Bool
  | validation _ => true
  | _ => false

def exceptIsValidation {α : Type} : Except ArcaErr α → Bool
  | .error e => e.isValidation
  | .ok _ => false

/-! ## Transport and remote bodies — `src/utils/network.ts`, `src/services/wsfe.ts`

`callArcaApi` either resolves to a fetch-like response (`ok`, `status`, parsed
body) or rejects with an `ArcaNetworkError` (timeout, connection error); a
non-2xx status does NOT reject, it resolves with `ok = false`.  Each remote
call's outcome is supplied by the environment. -/

structure HttpResponse (β : Type) where
  ok : Bool
  status : Nat
  body : β
deriving Repr, DecidableEq

/-- `.error m` means the transport itself threw `ArcaNetworkError m`. -/
abbrev TransportResult (β : Type) := Except String (HttpResponse β)

/-- One `Err` entry of a remote `Errors` list. -/
structure RemoteErr where
  code : String
  msg : String
deriving Repr, DecidableEq

/-- Parsed `FECompUltimoAutorizadoResult`: optional error list, optional
numeric `CbteNro` (absent when the response shape is unexpected). -/
structure LastNumberBody where
  errors : Option RemoteErr
  cbteNro : Option Int
deriving Repr, DecidableEq

structure CAEDet where
  cbteDesde : Nat
  cbteFch : String
  cae : String
  caeFchVto : String
  resultado : String
  observaciones : List String
deriving Repr, DecidableEq

structure CAECab where
  cbteTipo : Nat
  ptoVta : Nat
deriving Repr, DecidableEq

/-- Parsed `FECAESolicitarResult`: `present = false` embeds a response in
which the expected result element is missing entirely. -/
structure CAEBody where
  present : Bool
  errors : Option RemoteErr
  cab : CAECab
  det : Option CAEDet
deriving Repr, DecidableEq

/-- `CAEResponse` as assembled by `parseCAEResponse`. -/
structure CAEResult where
  invoiceType : Nat
  pointOfSale : Nat
  invoiceNumber : Nat
  date : String
  cae : String
  caeExpiry : String
  result : String
  observations : List String
deriving Repr, DecidableEq

/-- `WsfeService.parseCAEResponse`: missing result element or missing detail
raise `ArcaError` with code `PARSE_ERROR`; a remote `Errors` list raises
`ArcaError` with code `ARCA_ERROR`. -/
def parseCAEResponse (body : CAEBody) : Except ArcaErr CAEResult :=
  if body.present = false then
    .error (.base "PARSE_ERROR" "Respuesta WSFE inválida: estructura no reconocida")
  else
    match body.errors with
    | some e => .error (.base "ARCA_ERROR" ("Error ARCA: " ++ e.msg))
    | none =>
      match body.det with
      | none => .error (.base "PARSE_ERROR" "Respuesta WSFE incompleta: falta detalle del comprobante")
      | some det =>
        .ok ⟨body.cab.cbteTipo, body.cab.ptoVta, det.cbteDesde, det.cbteFch, det.cae,
          det.caeFchVto, det.resultado, det.observaciones⟩

/-! ## Invoice issuance engine — `src/services/wsfe.ts` -/

def InvoiceType.FACTURA_A : Nat := 1
def InvoiceType.NOTA_DEBITO_A : Nat := 2
def InvoiceType.NOTA_CREDITO_A : Nat := 3
def InvoiceType.FACTURA_B : Nat := 6
def InvoiceType.NOTA_DEBITO_B : Nat := 7
def InvoiceType.NOTA_CREDITO_B : Nat := 8
def InvoiceType.FACTURA_C : Nat := 11
def InvoiceType.NOTA_DEBITO_C : Nat := 12
def InvoiceType.NOTA_CREDITO_C : Nat := 13
def InvoiceType.TICKET_C : Nat := 83
def BillingConcept.PRODUCTS : Nat := 1
def TaxIdType.FINAL_CONSUMER : Nat := 99

structure Buyer where
  docType : Nat
  docNumber : String
deriving Repr, DecidableEq

structure AssociatedInvoice where
  type : Nat
  pointOfSale : Nat
  invoiceNumber : Nat
  cuit : Option String
  dateStr : Option String
deriving Repr, DecidableEq

structure VatEntry where
  rate : ℚ
  taxBase : ℚ
  amount : ℚ
deriving Repr, DecidableEq

/-- `IssueInvoiceRequest` (dates embedded as preformatted strings). -/
structure IssueInvoiceRequest where
  type : Nat
  concept : Nat
  buyer : Option Buyer
  items : Option (List InvoiceItem)
  associatedInvoices : Option (List AssociatedInvoice)
  total : Option ℚ
  vatData : Option (List VatEntry)
  includesVAT : Option Bool
  dateStr : Option String
deriving Repr, DecidableEq

/-- `WsfeService.getVATCode`: the fixed rate→code table
{0→3, 10.5→4, 21→5, 27→6}; any other rate raises `ValidationError`. -/
def getVATCode (percentage : ℚ) : Except ArcaErr Nat :=
  if percentage = 0 then .ok 3
  else if percentage = 21 / 2 then .ok 4
  else if percentage = 21 then .ok 5
  else if percentage = 27 then .ok 6
  else .error (.validation "Alícuota IVA inválida")

/-- One `AlicIva` element of the request envelope. -/
structure AlicIva where
  id : Nat
  baseImp : ℚ
  importe : ℚ
deriving Repr, DecidableEq

/-- The fields interpolated into the `FECAESolicitar` envelope template; the
XML serialization is embedded as this structured descriptor. -/
structure CAERequestData where
  pointOfSale : Nat
  invoiceType : Nat
  invoiceNumber : Int
  concept : Nat
  docType : Nat
  docNumber : String
  dateStr : String
  total : ℚ
  net : ℚ
  vat : ℚ
  alicIva : List AlicIva
  assoc : List AssociatedInvoice
deriving Repr, DecidableEq

/-- The `vatData.forEach` loop of `buildCAERequest`: each entry's rate is
mapped through `getVATCode` (which may throw). -/
def mapVatCodes : List VatEntry → Except ArcaErr (List AlicIva)
  | [] => .ok []
  | e :: rest =>
    match getVATCode e.rate with
    | .error err => .error err
    | .ok c =>
      match mapVatCodes rest with
      | .error err => .error err
      | .ok tail => .ok (⟨c, e.taxBase, e.amount⟩ :: tail)

/-- `WsfeService.buildCAERequest`: assembles the envelope descriptor.
JS truthiness of `params.buyer?.docType || 99` and
`params.buyer?.docNumber || 0` is embedded explicitly. -/
def buildCAERequest (pointOfSale typ concept : Nat) (buyer : Option Buyer)
    (invoiceNumber : Int) (dateStr : String) (net vat total : ℚ)
    (vatData : Option (List VatEntry)) (assoc : Option (List AssociatedInvoice)) :
    Except ArcaErr CAERequestData :=
  match mapVatCodes (vatData.getD []) with
  | .error e => .error e
  | .ok alic =>
    let docType := match buyer with
      | some b => if b.docType ≠ 0 then b.docType else 99
      | none => 99
    let docNumber := match buyer with
      | some b => if b.docNumber ≠ "" then b.docNumber else "0"
      | none => "0"
    .ok ⟨pointOfSale, typ, invoiceNumber, concept, docType, docNumber, dateStr,
      total, net, vat, alic, assoc.getD []⟩

/-- A remote operation actually performed on the wire. -/
inductive NetOp where
  | lastNumber (invoiceType : Nat)
  | submitCAE (request : CAERequestData)
deriving Repr, DecidableEq

/-- The environment: outcome of each remote call the engine may perform. -/
structure WsfeEnv where
  lastNumberResult : TransportResult LastNumberBody
  submitResult : TransportResult CAEBody
deriving Repr

/-- `typeof lastNumber === 'number' ? lastNumber + 1 : 1`. -/
def nextFromBody (b : LastNumberBody) : Int :=
  match b.cbteNro with
  | some n => n + 1
  | none => 1

/-- `WsfeService.getNextInvoiceNumber`: one `FECompUltimoAutorizado` round
trip; non-2xx raises `ArcaError` `HTTP_ERROR`, a remote error list raises
`ArcaError` `ARCA_ERROR`. -/
def getNextInvoiceNumber (env : WsfeEnv) (typ : Nat) : List NetOp × Except ArcaErr Int :=
  ([NetOp.lastNumber typ],
    match env.lastNumberResult with
    | .error m => .error (.network m)
    | .ok resp =>
      if resp.ok = false then
        .error (.base "HTTP_ERROR"
          ("Error HTTP al consultar último comprobante: " ++ toString resp.status))
      else
        match resp.body.errors with
        | some e => .error (.base "ARCA_ERROR" ("Error ARCA: " ++ e.msg))
        | none => .ok (nextFromBody resp.body))

/-- Step 2 of `issueDocument`: `(net, vat, total)`.  `total = request.total || 0`
and stays there unless a non-empty item list recomputes all three. -/
def computedTotals (request : IssueInvoiceRequest) : ℚ × ℚ × ℚ :=
  let total0 := request.total.getD 0
  match request.items with
  | some items =>
    if 0 < items.length then
      let includesVAT := request.includesVAT.getD false
      (round (calculateSubtotal items includesVAT), round (calculateVAT items includesVAT),
        round (calculateTotal items includesVAT))
    else (total0, 0, total0)
  | none => (total0, 0, total0)

/-- `WsfeService.issueDocument`: (1) fetch the next number (a network round
trip), (2) compute totals and reject `total <= 0` with `ValidationError`,
(3) build the request descriptor, (4) submit `FECAESolicitar`, (5) parse.
Returns the trace of remote operations together with the outcome.  Step 6
(attaching the QR URL to the returned object) performs no network call and is
modelled separately by `generarUrlQR`. -/
def issueDocument (pointOfSale : Nat) (request : IssueInvoiceRequest) (env : WsfeEnv) :
    List NetOp × Except ArcaErr CAEResult :=
  let first := getNextInvoiceNumber env request.type
  match first.2 with
  | .error e => (first.1, .error e)
  | .ok invoiceNumber =>
    let nvt := computedTotals request
    if nvt.2.2 ≤ 0 then
      (first.1, .error (.validation "El monto total debe ser mayor a 0"))
    else
      match buildCAERequest pointOfSale request.type request.concept request.buyer
        invoiceNumber (request.dateStr.getD "") nvt.1 nvt.2.1 nvt.2.2 request.vatData
        request.associatedInvoices with
      | .error e => (first.1, .error e)
      | .ok reqData =>
        let trace2 := first.1 ++ [NetOp.submitCAE reqData]
        match env.submitResult with
        | .error m => (trace2, .error (.network m))
        | .ok resp =>
          if resp.ok = false then
            (trace2, .error (.base "HTTP_ERROR"
              ("Error HTTP al comunicarse con WSFE: " ++ toString resp.status)))
          else (trace2, parseCAEResponse resp.body)

/-- `WsfeService.issueSimpleReceipt`: a Ticket C from a flat total, anonymous
final consumer. -/
def issueSimpleReceipt (pointOfSale : Nat) (total : ℚ) (concept : Option Nat)
    (dateStr : Option String) (env : WsfeEnv) : List NetOp × Except ArcaErr CAEResult :=
  issueDocument pointOfSale
    ⟨InvoiceType.TICKET_C, concept.getD BillingConcept.PRODUCTS,
      some ⟨TaxIdType.FINAL_CONSUMER, "0"⟩, none, none, some total, none, none, dateStr⟩ env

/-- The credit/debit-note type list of `validateAssociatedInvoices`. -/
def needsAssociation (typ : Nat) : Bool :=
  [InvoiceType.NOTA_CREDITO_A, InvoiceType.NOTA_DEBITO_A,
    InvoiceType.NOTA_CREDITO_B, InvoiceType.NOTA_DEBITO_B,
    InvoiceType.NOTA_CREDITO_C, InvoiceType.NOTA_DEBITO_C].contains typ

/-- `!associatedInvoices || associatedInvoices.length === 0`. -/
def assocMissing : Option (List AssociatedInvoice) → Bool
  | none => true
  | some l => l.isEmpty

/-- `WsfeService.validateAssociatedInvoices`. -/
def validateAssociatedInvoices (typ : Nat) (assoc : Option (List AssociatedInvoice)) :
    Except ArcaErr Unit :=
  if needsAssociation typ = true ∧ assocMissing assoc = true then
    .error (.validation "Las Notas de Crédito y Débito requieren al menos un comprobante asociado.")
  else .ok ()

/-- `WsfeService.validateItemsWithVAT`: every item must carry a `vatRate`
(the `missingVAT` filter is inlined into the emptiness test). -/
def validateItemsWithVAT (items : List InvoiceItem) : Except ArcaErr Unit :=
  if (items.filter fun i => i.vatRate.isNone).isEmpty = false then
    .error (.validation "Esta operación requiere `vatRate` en todos los items")
  else .ok ()

/-- The insertion-ordered rate map of `calculateVATByRate` (a JS `Map` keyed
by rate, first-occurrence order). -/
def upsertRate : List (ℚ × ℚ × ℚ) → ℚ → ℚ → ℚ → List (ℚ × ℚ × ℚ)
  | [], rate, base, amount => [(rate, base, amount)]
  | (r, b, a) :: rest, rate, base, amount =>
    if r = rate then (r, b + base, a + amount) :: rest
    else (r, b, a) :: upsertRate rest rate base amount

/-- `WsfeService.calculateVATByRate`. -/
def calculateVATByRate (items : List InvoiceItem) (includesVAT : Bool) : List VatEntry :=
  let byRate := items.foldl (fun acc item =>
    let rate := item.vatRate.getD 0
    let netPrice :=
      if includesVAT = true ∧ rate ≠ 0 then item.unitPrice / (1 + rate / 100) else item.unitPrice
    let base := item.quantity * netPrice
    let amount := base * rate / 100
    upsertRate acc rate base amount) []
  byRate.map fun e => ⟨e.1, round e.2.1, round e.2.2⟩

/-- Parameters of the A/B entry points (`issueInvoiceA/B`, credit/debit
notes A/B) forwarded to `issueInvoiceWithVAT`. -/
structure ItemizedParamsVAT where
  items : List InvoiceItem
  buyer : Buyer
  associatedInvoices : Option (List AssociatedInvoice)
  concept : Option Nat
  dateStr : Option String
  includesVAT : Option Bool
deriving Repr, DecidableEq

/-- Parameters of the C entry points forwarded to `issueInvoiceWithoutVAT`. -/
structure ItemizedParams where
  items : List InvoiceItem
  associatedInvoices : Option (List AssociatedInvoice)
  concept : Option Nat
  dateStr : Option String
  buyer : Option Buyer
deriving Repr, DecidableEq

/-- `WsfeService.issueInvoiceWithVAT`: item validation, associated-invoice
validation, VAT grouping, then `issueDocument`. -/
def issueInvoiceWithVAT (pointOfSale typ : Nat) (params : ItemizedParamsVAT)
    (env : WsfeEnv) : List NetOp × Except ArcaErr CAEResult :=
  match validateItemsWithVAT params.items with
  | .error e => ([], .error e)
  | .ok _ =>
    match validateAssociatedInvoices typ params.associatedInvoices with
    | .error e => ([], .error e)
    | .ok _ =>
      let includesVAT := params.includesVAT.getD false
      let vatData := calculateVATByRate params.items includesVAT
      issueDocument pointOfSale
        ⟨typ, params.concept.getD BillingConcept.PRODUCTS, some params.buyer,
          some params.items, params.associatedInvoices, none, some vatData,
          some includesVAT, params.dateStr⟩ env

/-- `WsfeService.issueInvoiceWithoutVAT`: associated-invoice validation, flat
total from the items, then `issueDocument`. -/
def issueInvoiceWithoutVAT (pointOfSale typ : Nat) (params : ItemizedParams)
    (env : WsfeEnv) : List NetOp × Except ArcaErr CAEResult :=
  match validateAssociatedInvoices typ params.associatedInvoices with
  | .error e => ([], .error e)
  | .ok _ =>
    let total := round (calculateTotal params.items false)
    issueDocument pointOfSale
      ⟨typ, params.concept.getD BillingConcept.PRODUCTS,
        some (params.buyer.getD ⟨TaxIdType.FINAL_CONSUMER, "0"⟩), some params.items,
        params.associatedInvoices, some total, none, none, params.dateStr⟩ env

/-! ### Concrete environments for the issuance claims -/

/-- A successful `FECompUltimoAutorizado` round trip: last number 41. -/
def lastNumberOk41 : TransportResult LastNumberBody := .ok ⟨true, 200, ⟨none, some 41⟩⟩

/-- A successful, approved `FECAESolicitar` round trip. -/
def submitOkApproved : TransportResult CAEBody :=
  .ok ⟨true, 200, ⟨true, none, ⟨83, 4⟩, some ⟨42, "20260220", "75123456789012", "20260302", "A", []⟩⟩⟩

/-- Environment in which both remote calls succeed. -/
def envOk : WsfeEnv := ⟨lastNumberOk41, submitOkApproved⟩

/-- Environment in which the last-number call returns HTTP 500 with no
parseable fault. -/
def env500 : WsfeEnv := ⟨.ok ⟨false, 500, ⟨none, none⟩⟩, submitOkApproved⟩

/-! ### Claim C2 — `total <= 0` rejection and the network -/

/-- C2 (counterexample): `issueSimpleReceipt` with `total = 0` does raise
`ValidationError`, but only AFTER performing the `FECompUltimoAutorizado`
network call — the trace is `[lastNumber 83]`, not empty as claimed. -/
theorem C2_issueDocument_counterexample :
    (issueSimpleReceipt 4 0 none none envOk).2 =
        .error (.validation "El monto total debe ser mayor a 0") ∧
      (issueSimpleReceipt 4 0 none none envOk).1 = [NetOp.lastNumber 83] ∧
      (issueSimpleReceipt 4 0 none none envOk).1 ≠ [] := by
  refine ⟨?_, ?_, ?_⟩
  all_goals
    norm_num [issueSimpleReceipt, issueDocument, getNextInvoiceNumber, computedTotals,
      nextFromBody, envOk, lastNumberOk41, InvoiceType.TICKET_C, BillingConcept.PRODUCTS,
      TaxIdType.FINAL_CONSUMER]

/-- C2 (amended): whenever the last-number call succeeds and the computed
total is not greater than 0, `issueDocument` raises `ValidationError` and the
mutating `FECAESolicitar` call is never made — but the
`FECompUltimoAutorizado` query has already been performed (the trace is
exactly that one call, not empty). -/
theorem C2_issueDocument_amended (pointOfSale : Nat) (request : IssueInvoiceRequest)
    (env : WsfeEnv) (resp : HttpResponse LastNumberBody)
    (hok : env.lastNumberResult = .ok resp) (hr : resp.ok = true)
    (hne : resp.body.errors = none) (htot : (computedTotals request).2.2 ≤ 0) :
    (issueDocument pointOfSale request env).2 =
        .error (.validation "El monto total debe ser mayor a 0") ∧
      (issueDocument pointOfSale request env).1 = [NetOp.lastNumber request.type] := by
  simp [issueDocument, getNextInvoiceNumber, hok, hr, hne, htot]

/-- The request object `issueSimpleReceipt({total: 0})` builds. -/
def simpleZeroRequest : IssueInvoiceRequest :=
  ⟨InvoiceType.TICKET_C, BillingConcept.PRODUCTS, some ⟨TaxIdType.FINAL_CONSUMER, "0"⟩,
    none, none, some 0, none, none, none⟩

/-- C2 witness: the amended theorem applied to the zero-total simple receipt
in the successful environment. -/
theorem C2_issueDocument_amended_witness :
    (issueDocument 4 simpleZeroRequest envOk).2 =
        .error (.validation "El monto total debe ser mayor a 0") ∧
      (issueDocument 4 simpleZeroRequest envOk).1 = [NetOp.lastNumber simpleZeroRequest.type] :=
  C2_issueDocument_amended 4 simpleZeroRequest envOk ⟨true, 200, ⟨none, some 41⟩⟩ rfl rfl rfl
    (by norm_num [computedTotals, simpleZeroRequest])

/-! ### Claim C3 — error kinds of the issuance path -/

/-- C3 (counterexample): a non-2xx status with no parseable fault on the
last-number step raises the plain `ArcaError` with code `HTTP_ERROR` — whose
`code` is not `NETWORK_ERROR` — rather than an `ArcaNetworkError`. -/
theorem C3_errors_counterexample :
    (issueSimpleReceipt 4 1500 none none env500).2 =
        .error (.base "HTTP_ERROR"
          ("Error HTTP al consultar último comprobante: " ++ toString 500)) ∧
      (ArcaErr.base "HTTP_ERROR" "Error HTTP al consultar último comprobante: 500").code ≠
        "NETWORK_ERROR" ∧
      (ArcaErr.base "HTTP_ERROR" "Error HTTP al consultar último comprobante: 500") ≠
        .network "Error HTTP al consultar último comprobante: 500" := by
  refine ⟨?_, by decide, by decide⟩
  norm_num [issueSimpleReceipt, issueDocument, getNextInvoiceNumber, env500]

theorem getVATCode_error (p : ℚ) (e : ArcaErr) (h : getVATCode p = .error e) :
    e = .validation "Alícuota IVA inválida" := by
  unfold getVATCode at h
  split_ifs at h
  simp_all

theorem mapVatCodes_error (l : List VatEntry) (e : ArcaErr) (h : mapVatCodes l = .error e) :
    e = .validation "Alícuota IVA inválida" := by
  induction l with
  | nil => simp [mapVatCodes] at h
  | cons x xs ih =>
    unfold mapVatCodes at h
    cases hg : getVATCode x.rate with
    | error err =>
      rw [hg] at h
      cases h
      exact getVATCode_error x.rate e hg
    | ok c =>
      rw [hg] at h
      cases hm : mapVatCodes xs with
      | error err =>
        rw [hm] at h
        cases h
        exact ih hm
      | ok tail => rw [hm] at h; cases h

theorem buildCAERequest_error (pointOfSale typ concept : Nat) (buyer : Option Buyer)
    (invoiceNumber : Int) (dateStr : String) (net vat total : ℚ)
    (vatData : Option (List VatEntry)) (assoc : Option (List AssociatedInvoice)) (e : ArcaErr)
    (h : buildCAERequest pointOfSale typ concept buyer invoiceNumber dateStr net vat total
      vatData assoc = .error e) :
    e = .validation "Alícuota IVA inválida" := by
  unfold buildCAERequest at h
  cases hm : mapVatCodes (vatData.getD []) with
  | error err =>
    rw [hm] at h
    cases h
    exact mapVatCodes_error _ e hm
  | ok alic => rw [hm] at h; cases h

theorem parseCAEResponse_error (body : CAEBody) (e : ArcaErr)
    (h : parseCAEResponse body = .error e) :
    e.code = "PARSE_ERROR" ∨ e.code = "ARCA_ERROR" := by
  unfold parseCAEResponse at h
  split_ifs at h with h1
  · cases h; left; rfl
  · cases hb : body.errors with
    | some err => rw [hb] at h; cases h; right; rfl
    | none =>
      rw [hb] at h
      cases hd : body.det with
      | none => rw [hd] at h; cases h; left; rfl
      | some det => rw [hd] at h; cases h

/-- C3 (amended): every error the issuance path raises is an
`ArcaValidationError`, an `ArcaNetworkError` (thrown by the transport for
timeouts/connection failures), or a plain `ArcaError` with code `HTTP_ERROR`,
`PARSE_ERROR` or `ARCA_ERROR`; in particular a non-2xx status with no
parseable fault — on the last-number step or on the submit step — raises the
plain `ArcaError` with code `HTTP_ERROR`, not an error of kind
`NETWORK_ERROR`. -/
theorem C3_errors_amended (pointOfSale : Nat) (request : IssueInvoiceRequest) (env : WsfeEnv) :
    (∀ e, (issueDocument pointOfSale request env).2 = .error e →
        e.code ∈ ["VALIDATION_ERROR", "NETWORK_ERROR", "HTTP_ERROR", "PARSE_ERROR",
          "ARCA_ERROR"]) ∧
      (∀ resp, env.lastNumberResult = .ok resp → resp.ok = false →
        (issueDocument pointOfSale request env).2 =
          .error (.base "HTTP_ERROR"
            ("Error HTTP al consultar último comprobante: " ++ toString resp.status))) ∧
      (∀ resp resp2 reqData, env.lastNumberResult = .ok resp → resp.ok = true →
        resp.body.errors = none → 0 < (computedTotals request).2.2 →
        buildCAERequest pointOfSale request.type request.concept request.buyer
          (nextFromBody resp.body) (request.dateStr.getD "") (computedTotals request).1
          (computedTotals request).2.1 (computedTotals request).2.2 request.vatData
          request.associatedInvoices = .ok reqData →
        env.submitResult = .ok resp2 → resp2.ok = false →
        (issueDocument pointOfSale request env).2 =
          .error (.base "HTTP_ERROR"
            ("Error HTTP al comunicarse con WSFE: " ++ toString resp2.status))) := by
  refine ⟨?_, ?_, ?_⟩
  · intro e he
    unfold issueDocument getNextInvoiceNumber at he
    cases henv : env.lastNumberResult with
    | error m =>
      rw [henv] at he
      simp at he
      simp [← he, ArcaErr.code]
    | ok resp =>
      rw [henv] at he
      by_cases hro : resp.ok = false
      · simp [hro] at he
        simp [← he, ArcaErr.code]
      · simp [hro] at he
        cases herr : resp.body.errors with
        | some remote =>
          rw [herr] at he
          simp at he
          simp [← he, ArcaErr.code]
        | none =>
          rw [herr] at he
          simp at he
          by_cases htot : (computedTotals request).2.2 ≤ 0
          · simp [htot] at he
            simp [← he, ArcaErr.code]
          · simp [htot] at he
            cases hb : buildCAERequest pointOfSale request.type request.concept request.buyer
              (nextFromBody resp.body) (request.dateStr.getD "") (computedTotals request).1
              (computedTotals request).2.1 (computedTotals request).2.2 request.vatData
              request.associatedInvoices with
            | error eb =>
              rw [hb] at he
              simp at he
              rw [← he, buildCAERequest_error _ _ _ _ _ _ _ _ _ _ _ _ hb]
              simp [ArcaErr.code]
            | ok reqData =>
              rw [hb] at he
              simp at he
              cases hsub : env.submitResult with
              | error m =>
                rw [hsub] at he
                simp at he
                simp [← he, ArcaErr.code]
              | ok resp2 =>
                rw [hsub] at he
                by_cases hr2 : resp2.ok = false
                · simp [hr2] at he
                  simp [← he, ArcaErr.code]
                · simp [hr2] at he
                  rcases parseCAEResponse_error resp2.body e he with hc | hc
                  · simp [hc]
                  · simp [hc]
  · intro resp hok hro
    simp [issueDocument, getNextInvoiceNumber, hok, hro]
  · intro resp resp2 reqData hok hro hne htot hbuild hsub hr2
    simp [issueDocument, getNextInvoiceNumber, hok, hro, hne, not_le.mpr htot, hbuild, hsub, hr2]

/-- C3 witness: the amended theorem's non-2xx clause applied to the concrete
HTTP-500 environment. -/
theorem C3_errors_amended_witness :
    (issueDocument 4 simpleZeroRequest env500).2 =
      .error (.base "HTTP_ERROR"
        ("Error HTTP al consultar último comprobante: " ++ toString 500)) :=
  (C3_errors_amended 4 simpleZeroRequest env500).2.1 ⟨false, 500, ⟨none, none⟩⟩ rfl rfl

/-! ### Claim C8 — credit/debit notes require an associated invoice -/

theorem validateItemsWithVAT_error (items : List InvoiceItem) (e : ArcaErr)
    (h : validateItemsWithVAT items = .error e) : e.isValidation = true := by
  unfold validateItemsWithVAT at h
  split_ifs at h with hc
  injection h with h'
  subst h'
  rfl

/-- C8: for every credit or debit note (A, B or C) whose associated-invoice
list is absent or empty, both issuing helpers raise `ValidationError` with an
empty network trace — no remote operation is invoked. -/
theorem C8_note_requires_association (pointOfSale typ : Nat) (pv : ItemizedParamsVAT)
    (pw : ItemizedParams) (env : WsfeEnv) (ht : needsAssociation typ = true)
    (hv : assocMissing pv.associatedInvoices = true)
    (hw : assocMissing pw.associatedInvoices = true) :
    ((issueInvoiceWithVAT pointOfSale typ pv env).1 = [] ∧
        exceptIsValidation (issueInvoiceWithVAT pointOfSale typ pv env).2 = true) ∧
      ((issueInvoiceWithoutVAT pointOfSale typ pw env).1 = [] ∧
        exceptIsValidation (issueInvoiceWithoutVAT pointOfSale typ pw env).2 = true) := by
  constructor
  · unfold issueInvoiceWithVAT
    cases hvi : validateItemsWithVAT pv.items with
    | error e =>
      simp [exceptIsValidation, validateItemsWithVAT_error pv.items e hvi]
    | ok u =>
      simp [validateAssociatedInvoices, ht, hv, exceptIsValidation, ArcaErr.isValidation]
  · unfold issueInvoiceWithoutVAT
    simp [validateAssociatedInvoices, ht, hw, exceptIsValidation, ArcaErr.isValidation]

/-- An A-type item list (every item carries a `vatRate`). -/
def creditNoteItems : List InvoiceItem := [⟨"Servicio", 1, 100, some 21⟩]

/-- Credit-note-A parameters with no associated invoices. -/
def cnParamsVAT : ItemizedParamsVAT := ⟨creditNoteItems, ⟨80, "20987654321"⟩, none, none, none, none⟩

/-- Credit-note-C parameters with an explicitly empty associated list. -/
def cnParamsC : ItemizedParams := ⟨creditNoteItems, some [], none, none, none⟩

/-- C8 witness: the theorem applied to a credit note A with absent
`associatedInvoices` and a credit note C with an empty list. -/
theorem C8_note_requires_association_witness :
    ((issueInvoiceWithVAT 4 InvoiceType.NOTA_CREDITO_A cnParamsVAT envOk).1 = [] ∧
        exceptIsValidation
          (issueInvoiceWithVAT 4 InvoiceType.NOTA_CREDITO_A cnParamsVAT envOk).2 = true) ∧
      ((issueInvoiceWithoutVAT 4 InvoiceType.NOTA_CREDITO_A cnParamsC envOk).1 = [] ∧
        exceptIsValidation
          (issueInvoiceWithoutVAT 4 InvoiceType.NOTA_CREDITO_A cnParamsC envOk).2 = true) :=
  C8_note_requires_association 4 InvoiceType.NOTA_CREDITO_A cnParamsVAT cnParamsC envOk
    (by decide) rfl rfl

/-! ## Authentication service — `src/auth/storage.ts` (`WsaaService.login`)

`login()` consults the in-memory `TicketManager`, then (when configured) the
external `TokenStorage`, and finally performs the remote WSAA exchange.  The
external store's `get`/`save` and the remote exchange (`requestNewTicket`) are
environment-supplied outcomes; `.error m` embeds a thrown/rejected promise.
The trace records which collaborators were actually invoked. -/

inductive LoginOp where
  | storageGet
  | wsaaRequest
  | storageSave
deriving Repr, DecidableEq

/-- The configured external `TokenStorage`, as the outcomes its two
operations would produce for this CUIT/environment. -/
structure StorageEnv where
  getResult : Except String (Option LoginTicket)
  saveResult : Except String Unit

/-- The outcome of `WsaaService.login`: the value returned (or error thrown),
the new in-memory cache contents, and the invocation trace. -/
structure LoginOutcome where
  result : Except ArcaErr LoginTicket
  memory : Option LoginTicket
  trace : List LoginOp

/-- Step 3 of `login`: the remote WSAA exchange plus the best-effort `save`
(a `save` rejection is caught and logged, never rethrown). -/
def loginRequestNew (storage : Option StorageEnv) (memory : Option LoginTicket)
    (traced : List LoginOp) (fresh : Except ArcaErr LoginTicket) : LoginOutcome :=
  match fresh with
  | .error e => ⟨.error e, memory, traced ++ [LoginOp.wsaaRequest]⟩
  | .ok t =>
    match storage with
    | some _ => ⟨.ok t, some t, traced ++ [LoginOp.wsaaRequest, LoginOp.storageSave]⟩
    | none => ⟨.ok t, some t, traced ++ [LoginOp.wsaaRequest]⟩

/-- `WsaaService.login` (the variant with optional persistence): (1) a valid
in-memory ticket is returned at once; (2) otherwise a configured store's
`get` is tried — a thrown error is caught and treated as a miss, a stored
ticket is adopted only if it expires strictly more than 5 minutes from now;
(3) otherwise a new ticket is requested and best-effort saved. -/
def login (storage : Option StorageEnv) (memory : Option LoginTicket) (now : Int)
    (fresh : Except ArcaErr LoginTicket) : LoginOutcome :=
  let cached := TicketManager.getTicket memory now
  match cached.1 with
  | some t => ⟨.ok t, cached.2, []⟩
  | none =>
    match storage with
    | some st =>
      match st.getResult with
      | .error _ => loginRequestNew storage cached.2 [LoginOp.storageGet] fresh
      | .ok none => loginRequestNew storage cached.2 [LoginOp.storageGet] fresh
      | .ok (some stored) =>
        if now + 5 * 60000 < stored.expirationTime then
          ⟨.ok stored, some stored, [LoginOp.storageGet]⟩
        else loginRequestNew storage cached.2 [LoginOp.storageGet] fresh
    | none => loginRequestNew storage cached.2 [] fresh

/-! ### Claim C9 — store failures never fail the login -/

/-- C9: when the in-memory cache misses and the configured store's `get`
throws, `login` proceeds to the remote exchange (the request appears in the
trace) and its outcome is exactly the exchange's outcome — regardless of the
store's `save` behaviour.  In particular a failing `get` is a cache miss, and
after a failing `save` the freshly obtained ticket is still returned. -/
theorem C9_login_store_failures (memory : Option LoginTicket) (now : Int)
    (st : StorageEnv) (fresh : Except ArcaErr LoginTicket) (gm : String)
    (hmiss : (TicketManager.getTicket memory now).1 = none)
    (hget : st.getResult = .error gm) :
    (login (some st) memory now fresh).result = fresh ∧
      LoginOp.wsaaRequest ∈ (login (some st) memory now fresh).trace ∧
      (∀ t, fresh = .ok t → (login (some st) memory now fresh).result = .ok t) := by
  simp only [login, hmiss, hget]
  cases fresh with
  | error e =>
    refine ⟨rfl, ?_, fun t ht => by cases ht⟩
    simp [loginRequestNew]
  | ok t =>
    refine ⟨rfl, ?_, fun u hu => by cases hu; rfl⟩
    simp [loginRequestNew]

/-- A fresh ticket one hour from expiry at `now = 0`. -/
def freshTicket : LoginTicket := ⟨"fresh-token", "fresh-sign", 0, 3600000⟩

/-- A store whose `get` and `save` both throw. -/
def brokenStore : StorageEnv := ⟨.error "storage get failed", .error "storage save failed"⟩

/-- C9 witness: the theorem applied with an empty memory cache and the
all-failing store: the freshly obtained ticket is still returned. -/
theorem C9_login_store_failures_witness :
    (login (some brokenStore) none 0 (.ok freshTicket)).result = .ok freshTicket ∧
      LoginOp.wsaaRequest ∈ (login (some brokenStore) none 0 (.ok freshTicket)).trace :=
  ⟨((C9_login_store_failures none 0 brokenStore (.ok freshTicket) "storage get failed"
      rfl rfl).2.2) freshTicket rfl,
    (C9_login_store_failures none 0 brokenStore (.ok freshTicket) "storage get failed"
      rfl rfl).2.1⟩

/-! ## QR payload generator — `src/utils/qr.ts` (`generarUrlQR`)

The JSON payload is an ASCII string, so `Buffer.from(jsonString)` (UTF-8) is
embedded as the character-code list.  `btoa`/`Buffer.toString('base64')` is
the standard base64 alphabet with `=` padding; `encodeURIComponent` is the
ECMA-262 escaping over ASCII. -/

def cleanDigits (s : String) : String := String.mk (s.toList.filter Char.isDigit)

/-- JS `Number` on a digit string (`Number('') = 0`). -/
def digitsToNat (s : String) : Nat := s.toList.foldl (fun n c => n * 10 + (c.toNat - 48)) 0

/-- The `YYYYMMDD → YYYY-MM-DD` reformatting of step 2. -/
def formatFecha (fDate : String) : String :=
  if fDate.length = 8 then
    String.mk (fDate.toList.take 4) ++ "-" ++ String.mk ((fDate.toList.drop 4).take 2) ++ "-" ++
      String.mk ((fDate.toList.drop 6).take 2)
  else fDate

/-- JSON rendering of `importe: Number(parseFloat(total.toFixed(2)))` for a
nonnegative amount: `toFixed(2)` rounds to cents, `parseFloat` drops trailing
zeros, `JSON.stringify` prints the minimal decimal form. -/
def renderImporte (total : ℚ) : String :=
  let cents := (jsMathRound (total * 100)).toNat
  if cents % 100 = 0 then toString (cents / 100)
  else if cents % 10 = 0 then toString (cents / 100) ++ "." ++ toString (cents % 100 / 10)
  else toString (cents / 100) ++ "." ++
    (if cents % 100 < 10 then "0" ++ toString (cents % 100) else toString (cents % 100))

/-- `JSON.stringify(qrObj)`: compact JSON with the source's strict key order
(`tipoDocRec`/`nroDocRec` included only when `includeRec`). -/
def qrJson (fechaFormat : String) (cuitN ptoVta tipoCmp nroCmp : Nat) (importe : String)
    (includeRec : Bool) (docTipo docNroN codAut : Nat) : String :=
  "\x7b\"ver\":1,\"fecha\":\"" ++ fechaFormat ++ "\",\"cuit\":" ++ toString cuitN ++
    ",\"ptoVta\":" ++ toString ptoVta ++ ",\"tipoCmp\":" ++ toString tipoCmp ++
    ",\"nroCmp\":" ++ toString nroCmp ++ ",\"importe\":" ++ importe ++
    ",\"moneda\":\"PES\",\"ctz\":1" ++
    (if includeRec then
      ",\"tipoDocRec\":" ++ toString docTipo ++ ",\"nroDocRec\":" ++ toString docNroN
    else "") ++
    ",\"tipoCodAut\":\"E\",\"codAut\":" ++ toString codAut ++ "\x7d"

def b64Char (n : Nat) : Char :=
  "ABCDEFGHIJKLMNOPQRSTUVWXYZabcdefghijklmnopqrstuvwxyz0123456789+/".toList.getD n 'A'

/-- Standard base64 over a byte list, `=`-padded. -/
def base64Encode : List Nat → List Char
  | [] => []
  | [a] => [b64Char (a / 4), b64Char (a % 4 * 16), '=', '=']
  | [a, b] => [b64Char (a / 4), b64Char (a % 4 * 16 + b / 16), b64Char (b % 16 * 4), '=']
  | a :: b :: c :: rest =>
    b64Char (a / 4) :: b64Char (a % 4 * 16 + b / 16) :: b64Char (b % 16 * 4 + c / 64) ::
      b64Char (c % 64) :: base64Encode rest

def hexUpper (n : Nat) : Char := "0123456789ABCDEF".toList.getD n '0'

/-- The characters `encodeURIComponent` leaves unescaped (ECMA-262:
alphanumerics and `- _ . ! ~ * ' ( )`). -/
def isUriUnescaped (c : Char) : Bool :=
  c.isAlphanum || c = '-' || c = '_' || c = '.' || c = '!' || c = '~' || c = '*' ||
    c = '\'' || c = '(' || c = ')'

/-- `encodeURIComponent` restricted to ASCII input (base64 output is ASCII). -/
def encodeURIComponent (s : String) : String :=
  String.mk (s.toList.foldr (fun c acc =>
    if isUriUnescaped c then c :: acc
    else '%' :: hexUpper (c.toNat / 16) :: hexUpper (c.toNat % 16) :: acc) [])

/-- The fields of `CAEResponse` consumed by `generarUrlQR`. -/
structure CAEResponseQR where
  fecha : String
  cae : String
  puntoVenta : Nat
  tipoComprobante : Nat
  nroComprobante : Nat
deriving Repr, DecidableEq

structure Comprador where
  tipoDocumento : Nat
  nroDocumento : String
deriving Repr, DecidableEq

/-- `generarUrlQR(caeResponse, cuitEmisor, total, comprador?)` from
`src/utils/qr.ts`: cleans the CUIT/CAE, reformats the date, builds the
strict-order JSON object (omitting the buyer fields for an anonymous final
consumer), base64-encodes it and — in step 6 — wraps the base64 payload in
`encodeURIComponent` before splicing it after `?p=`. -/
def generarUrlQR (caeResponse : CAEResponseQR) (cuitEmisor : String) (total : ℚ)
    (comprador : Option Comprador) : String :=
  let cleanCuit := cleanDigits cuitEmisor
  let cleanCae := cleanDigits caeResponse.cae
  let fechaFormat := formatFecha caeResponse.fecha
  let docTipo := match comprador with
    | some c => if c.tipoDocumento ≠ 0 then c.tipoDocumento else 99
    | none => 99
  let docNro := match comprador with
    | some c => if c.nroDocumento ≠ "" then cleanDigits c.nroDocumento else "0"
    | none => "0"
  let includeRec := (docTipo != 99) || (digitsToNat docNro != 0)
  let jsonString := qrJson fechaFormat (digitsToNat cleanCuit) caeResponse.puntoVenta
    caeResponse.tipoComprobante caeResponse.nroComprobante (renderImporte total)
    includeRec docTipo (digitsToNat docNro) (digitsToNat cleanCae)
  let base64 := String.mk (base64Encode (jsonString.toList.map Char.toNat))
  "https://www.afip.gob.ar/fe/qr/?p=" ++ encodeURIComponent base64

def charListIsInit : List Char → List Char → Bool
  | [], _ => true
  | _ :: _, [] => false
  | p :: ps, c :: cs => p == c && charListIsInit ps cs

def charListHasSub (pat : List Char) : List Char → Bool
  | [] => charListIsInit pat []
  | c :: cs => charListIsInit pat (c :: cs) || charListHasSub pat cs

/-- Substring test (naive search). -/
def strContainsSub (pat s : String) : Bool := charListHasSub pat.toList s.toList

/-! ### Claim C1 — the base64 payload is NOT embedded verbatim -/

/-- The CAE response of the repository's own QR unit test. -/
def qrTestCAE : CAEResponseQR := ⟨"20260220", "12345678901234", 4, 11, 123⟩

set_option maxRecDepth 40000 in
/-- C1 (code bug evidence): on the repository's own unit-test input the URL
produced by `generarUrlQR` ends in `%3D` — the base64 padding `=` is
percent-encoded by the `encodeURIComponent` call of step 6, so the base64
segment after `?p=` is NOT embedded verbatim, contradicting the spec, the
repository's README and its QR unit test (which require the raw payload with
no `%2B`/`%2F`/`%3D`). -/
theorem C1_generarUrlQR_codebug :
    generarUrlQR qrTestCAE "20123456789" (3001 / 2) none =
        "https://www.afip.gob.ar/fe/qr/?p=eyJ2ZXIiOjEsImZlY2hhIjoiMjAyNi0wMi0yMCIsImN1aXQiOjIwMTIzNDU2Nzg5LCJwdG9WdGEiOjQsInRpcG9DbXAiOjExLCJucm9DbXAiOjEyMywiaW1wb3J0ZSI6MTUwMC41LCJtb25lZGEiOiJQRVMiLCJjdHoiOjEsInRpcG9Db2RBdXQiOiJFIiwiY29kQXV0IjoxMjM0NTY3ODkwMTIzNH0%3D" ∧
      strContainsSub "%3D" (generarUrlQR qrTestCAE "20123456789" (3001 / 2) none) = true := by
  have hc : jsMathRound ((3001 : ℚ) / 2 * 100) = 150050 := by norm_num [jsMathRound]
  have himp : renderImporte (3001 / 2) = "1500.5" := by
    unfold renderImporte
    rw [hc]
    rfl
  have hurl : generarUrlQR qrTestCAE "20123456789" (3001 / 2) none =
      "https://www.afip.gob.ar/fe/qr/?p=eyJ2ZXIiOjEsImZlY2hhIjoiMjAyNi0wMi0yMCIsImN1aXQiOjIwMTIzNDU2Nzg5LCJwdG9WdGEiOjQsInRpcG9DbXAiOjExLCJucm9DbXAiOjEyMywiaW1wb3J0ZSI6MTUwMC41LCJtb25lZGEiOiJQRVMiLCJjdHoiOjEsInRpcG9Db2RBdXQiOiJFIiwiY29kQXV0IjoxMjM0NTY3ODkwMTIzNH0%3D" := by
    simp only [generarUrlQR, himp]
    rfl
  exact ⟨hurl, by rw [hurl]; rfl⟩

end ArcaSdk
